import Mathlib

/-!
Verification development for the Timelapse-X orchestration core.

This file shallowly embeds the two modules the claims are about:
  * `timelapse_x/state_manager.py` (recording state machine, camera
    schedulers, window-async flag, singleton construction), and
  * `timelapse_x/thread_safety.py` (queued tasks, the priority heap used
    by `MainThreadQueue`, and its drain loop `process_tasks`).

Modelling conventions:
  * Python `time.time()` timestamps and float durations are modelled as
    exact rationals (`Rat`); the claims under study only compare and add
    times, so no float rounding is involved.
  * Every method that reads the wall clock takes the current time `now`
    as an explicit argument.
  * Python `raise` is modelled with `Except String`; a method that can
    raise returns `Except.error msg` and, since the exception escapes
    before any field assignment, the caller's state is unchanged.
  * The `_camera_schedulers` dict is modelled as an association list with
    first-match lookup; dict iteration order is never used by the
    embedded code (only per-name lookup).
  * All methods run under the manager's reentrant lock, so each Python
    call is one atomic state transformation `State → State` (or
    `State → State × result`).
-/

namespace TimelapseX

/-- `RecordingState` enum from `state_manager.py`. -/
inductive RecordingState where
  | idle
  | recording
  | paused
deriving DecidableEq, Repr

/-- The `.value` string of each enum member. -/
def RecordingState.value : RecordingState → String
  | .idle => "idle"
  | .recording => "recording"
  | .paused => "paused"

/-- `CameraScheduler` from `state_manager.py` (mutable per-camera record).
`__init__(camera_name, interval, start_index)` sets `next_due = time.time()`
(passed here as `now`), `last_capture = 0.0`, `total_captures = start_index`. -/
structure CameraScheduler where
  camera_name : String
  interval : Rat
  next_due : Rat
  last_capture : Rat
  total_captures : Nat
deriving DecidableEq, Repr

/-- `CameraScheduler.__init__`. -/
def CameraScheduler.mk_init (camera_name : String) (interval : Rat)
    (start_index : Nat) (now : Rat) : CameraScheduler :=
  { camera_name := camera_name
    interval := interval
    next_due := now
    last_capture := 0
    total_captures := start_index }

/-- `CameraScheduler.is_due(now)`: `return now >= self.next_due`. -/
def CameraScheduler.is_due (s : CameraScheduler) (now : Rat) : Bool :=
  now ≥ s.next_due

/-- `CameraScheduler.mark_captured(now)`. -/
def CameraScheduler.mark_captured (s : CameraScheduler) (now : Rat) :
    CameraScheduler :=
  { s with
    last_capture := now
    next_due := now + s.interval
    total_captures := s.total_captures + 1 }

/-- The mutable attribute set of a `StateManager` instance
(all the `self._*` fields assigned in `StateManager.__init__`). -/
structure StateManagerState where
  state : RecordingState
  capture_mode : String
  session_dir : String
  counter : Nat
  start_time : Rat
  last_capture_time : Rat
  timer : Option Nat
  last_window_image : String
  window_async_pending : Bool
  window_async_scheduled_time : Rat
  camera_schedulers : List (String × CameraScheduler)
  rr_index : Nat
  dirty : Bool
  ignore_depsgraph : Bool
  handler_installed : Bool
  suppress_until : Rat
  initialized : Bool
deriving DecidableEq, Repr

namespace StateManagerState

/-- Dict lookup `self._camera_schedulers.get(name)`. -/
def schedGet (l : List (String × CameraScheduler)) (name : String) :
    Option CameraScheduler :=
  (l.find? (fun p => p.1 = name)).map Prod.snd

/-- Dict store `self._camera_schedulers[name] = sched` (replace or append). -/
def schedSet (l : List (String × CameraScheduler)) (name : String)
    (sched : CameraScheduler) : List (String × CameraScheduler) :=
  if (l.find? (fun p => p.1 = name)).isSome then
    l.map (fun p => if p.1 = name then (name, sched) else p)
  else
    l ++ [(name, sched)]

/-- The field values established by `StateManager.__init__` when it runs
its body (fresh instance). -/
def initialState : StateManagerState :=
  { state := RecordingState.idle
    capture_mode := ""
    session_dir := ""
    counter := 0
    start_time := 0
    last_capture_time := 0
    timer := none
    last_window_image := ""
    window_async_pending := false
    window_async_scheduled_time := 0
    camera_schedulers := []
    rr_index := 0
    dirty := true
    ignore_depsgraph := false
    handler_installed := false
    suppress_until := 0
    initialized := true }

/-- `StateManager.start_recording(mode, session_dir)`: raises
`RuntimeError("Already recording (state=...)")` when not Idle (before any
assignment, so the state is unchanged); otherwise performs the assignments
of lines 288-300 of `state_manager.py`. -/
def start_recording (m : StateManagerState) (mode session_dir : String)
    (now : Rat) : Except String StateManagerState :=
  if m.state ≠ RecordingState.idle then
    Except.error ("RuntimeError: Already recording (state=" ++ m.state.value ++ ")")
  else
    Except.ok { m with
      state := RecordingState.recording
      capture_mode := mode
      session_dir := session_dir
      counter := 0
      start_time := now
      last_capture_time := 0
      dirty := true
      last_window_image := ""
      rr_index := 0
      suppress_until := 0
      window_async_pending := false }

/-- `StateManager.stop_recording()`: early `return` (Python `None`) when
Idle; otherwise reads `final_count = self._counter` (used only in the log
message), resets `state/capture_mode/session_dir/counter/timer`, and falls
off the end of the function, which in Python returns `None`.  The returned
`Option Nat` is the Python return value (`none` = `None`). -/
def stop_recording (m : StateManagerState) : StateManagerState × Option Nat :=
  if m.state = RecordingState.idle then
    (m, none)
  else
    ({ m with
        state := RecordingState.idle
        capture_mode := ""
        session_dir := ""
        counter := 0
        timer := none }, none)

/-- `StateManager.pause_recording()`. -/
def pause_recording (m : StateManagerState) : StateManagerState :=
  if m.state = RecordingState.recording then
    { m with state := RecordingState.paused }
  else m

/-- `StateManager.resume_recording()`. -/
def resume_recording (m : StateManagerState) : StateManagerState :=
  if m.state = RecordingState.paused then
    { m with state := RecordingState.recording }
  else m

/-- `StateManager.mark_captured()`: increments the counter, stamps
`last_capture_time` and clears the dirty flag only in states RECORDING and
PAUSED; otherwise falls through (total function: never raises). -/
def mark_captured (m : StateManagerState) (now : Rat) : StateManagerState :=
  if m.state = RecordingState.recording ∨ m.state = RecordingState.paused then
    { m with counter := m.counter + 1, last_capture_time := now, dirty := false }
  else m

/-- `StateManager.schedule_window_async(delay)`: returns `False` with no
mutation when a request is already pending; otherwise sets the pending flag
and `scheduled_time = time.time() + delay` and returns `True`. -/
def schedule_window_async (m : StateManagerState) (delay now : Rat) :
    StateManagerState × Bool :=
  if m.window_async_pending then
    (m, false)
  else
    ({ m with
        window_async_pending := true
        window_async_scheduled_time := now + delay }, true)

/-- `StateManager.finish_window_capture(success, error)` (the error is only
logged). -/
def finish_window_capture (m : StateManagerState) (_success : Bool)
    (_error : Option String) : StateManagerState :=
  { m with window_async_pending := false }

/-- `StateManager.cancel_window_async()`. -/
def cancel_window_async (m : StateManagerState) : StateManagerState × Bool :=
  if !m.window_async_pending then
    (m, false)
  else
    ({ m with window_async_pending := false }, true)

/-- `StateManager.clear_camera_schedulers()`. -/
def clear_camera_schedulers (m : StateManagerState) : StateManagerState :=
  { m with camera_schedulers := [], rr_index := 0 }

/-- `StateManager.init_camera_scheduler(camera_name, interval, start_index)`
(`CameraScheduler.__init__` reads the clock, passed here as `now`). -/
def init_camera_scheduler (m : StateManagerState) (camera_name : String)
    (interval : Rat) (start_index : Nat) (now : Rat) : StateManagerState :=
  let sched := CameraScheduler.mk_init camera_name interval start_index now
  { m with camera_schedulers := schedSet m.camera_schedulers camera_name sched }

/-- The round-robin scan of `get_due_cameras`: the `for offset in
range(len(camera_names))` loop breaks at the first offset whose camera has
a scheduler that `is_due(now)`; `none` when the loop finds no due camera. -/
def rrFirstDue (scheds : List (String × CameraScheduler))
    (camera_names : List String) (now : Rat) (start : Nat) : Option Nat :=
  (List.range camera_names.length).find? (fun offset =>
    let idx := (start + offset) % camera_names.length
    match schedGet scheds (camera_names.getD idx "") with
    | some s => s.is_due now
    | none => false)

/-- The per-candidate test of the round-robin loop, as a function of the
scan offset: the camera at index `(start + offset) % len` has a scheduler
and that scheduler `is_due(now)`.  This is exactly the predicate scanned
by `rrFirstDue`. -/
def dueAt (scheds : List (String × CameraScheduler)) (camera_names : List String)
    (now : Rat) (start offset : Nat) : Bool :=
  let idx := (start + offset) % camera_names.length
  match schedGet scheds (camera_names.getD idx "") with
  | some s => s.is_due now
  | none => false

/-- `StateManager.get_due_cameras(camera_names, round_robin)`: returns the
due list; in round-robin mode appends at most the first due camera starting
from `self._rr_index` and advances `self._rr_index` to one past it (the
index is written only when a due camera is found). -/
def get_due_cameras (m : StateManagerState) (camera_names : List String)
    (round_robin : Bool) (now : Rat) : StateManagerState × List String :=
  if camera_names.isEmpty then
    (m, [])
  else if round_robin then
    match rrFirstDue m.camera_schedulers camera_names now m.rr_index with
    | some offset =>
      let idx := (m.rr_index + offset) % camera_names.length
      ({ m with rr_index := (idx + 1) % camera_names.length },
        [camera_names.getD idx ""])
    | none => (m, [])
  else
    (m, camera_names.filter (fun name =>
      match schedGet m.camera_schedulers name with
      | some s => s.is_due now
      | none => false))

/-- `StateManager.update_camera_due(camera_name)` (no-op for an unknown
camera). -/
def update_camera_due (m : StateManagerState) (camera_name : String)
    (now : Rat) : StateManagerState :=
  match schedGet m.camera_schedulers camera_name with
  | none => m
  | some s =>
    let sched := s.mark_captured now
    { m with camera_schedulers := schedSet m.camera_schedulers camera_name sched }

/-- `StateManager.reset()`: unconditional field assignments of lines
483-497 of `state_manager.py` (a total function: no code path raises).
Note the code does not touch `_window_async_scheduled_time` or
`_initialized`. -/
def reset (m : StateManagerState) : StateManagerState :=
  { m with
    state := RecordingState.idle
    capture_mode := ""
    session_dir := ""
    counter := 0
    start_time := 0
    last_capture_time := 0
    timer := none
    last_window_image := ""
    window_async_pending := false
    camera_schedulers := []
    rr_index := 0
    dirty := true
    ignore_depsgraph := false
    handler_installed := false
    suppress_until := 0 }

end StateManagerState

/-- A freshly allocated instance as `StateManager.__new__` leaves it: only
`_initialized = False` is set; the other attributes are unbound in Python
and their values here are irrelevant placeholders, because `__init__`
overwrites all of them before `_initialized` becomes true. -/
def StateManagerState.blank : StateManagerState :=
  { StateManagerState.initialState with initialized := false }

/-- `StateManager.__new__(cls)`: with the class lock held, reuse
`cls._instance` when present, else allocate a fresh instance (with
`_initialized = False`) and store it in the class cell.  Argument and first
result component model the `cls._instance` cell before and after. -/
def StateManagerState.pyNew (cell : Option StateManagerState) :
    StateManagerState × Option StateManagerState :=
  match cell with
  | some inst => (inst, some inst)
  | none => (StateManagerState.blank, some StateManagerState.blank)

/-- `StateManager.__init__(self)`: early `return` when `_initialized` is
already true (no field is touched); otherwise assign every field its
initial value and set `_initialized = True`. -/
def StateManagerState.pyInit (m : StateManagerState) : StateManagerState :=
  if m.initialized then m else StateManagerState.initialState

/-- The expression `StateManager()`: `__new__` then `__init__` on the
returned (cell-aliased) instance; the cell sees the `__init__` mutations
because it aliases the same object. -/
def StateManagerState.construct (cell : Option StateManagerState) :
    StateManagerState × Option StateManagerState :=
  let inst := (StateManagerState.pyNew cell).1
  let inst2 := StateManagerState.pyInit inst
  (inst2, some inst2)

/-!
Embedding of `timelapse_x/thread_safety.py`.

`QueuedTask` is a `@dataclass`: Python generates `__eq__` (field-wise
equality) but, since `order=True` is not passed, **no** `__lt__`.  The
`MainThreadQueue` stores `(priority_value, task)` tuples in a
`queue.PriorityQueue`, i.e. a `heapq` binary heap on a Python list, whose
sift operations compare elements with `<`.  Python tuple `<` compares
componentwise: the integer priority values decide when they differ; when
they are equal the two `QueuedTask`s are compared, which raises
`TypeError` unless the tasks are field-wise equal (in which case the
tuples are equal and `<` is false).  Comparisons are therefore modelled
as `Except String Bool`.

A task's callable (`func`, `args`, `kwargs`) is modelled by the outcome
of calling it, `func : Except String Int` (the claims only observe
`execute`'s `(success, result, exception)` triple).  `result_channel`
records whether `result_queue` is not `None`, and deliveries to result
channels are logged by the drain loop.
-/

/-- `TaskPriority` enum. -/
inductive TaskPriority where
  | low
  | normal
  | high
  | critical
deriving DecidableEq, Repr

/-- The `.value` of each `TaskPriority` member. -/
def TaskPriority.val : TaskPriority → Nat
  | .low => 0
  | .normal => 1
  | .high => 2
  | .critical => 3

/-- The Python result triple `(success, result, exception)` of
`QueuedTask.execute`, with the exception carried as its message. -/
abbrev PyResult := Bool × Option Int × Option String

deriving instance DecidableEq for Except

/-- `QueuedTask` dataclass (field-wise `__eq__`, no `__lt__`). -/
structure QueuedTask where
  func : Except String Int
  priority : TaskPriority
  result_channel : Bool
  task_id : String
  created_at : Rat
  timeout : Rat
deriving DecidableEq, Repr

/-- `QueuedTask.execute()`: call the function, catching any exception. -/
def QueuedTask.execute (t : QueuedTask) : PyResult :=
  match t.func with
  | .ok r => (true, some r, none)
  | .error e => (false, none, some e)

/-- `QueuedTask.is_expired()`: `False` whenever `timeout <= 0`, else
`time.time() - created_at > timeout`. -/
def QueuedTask.is_expired (t : QueuedTask) (now : Rat) : Bool :=
  if t.timeout ≤ 0 then false
  else decide (t.timeout < now - t.created_at)

/-- Python `<` on two `(priority_value, task)` tuples (see the section
comment): differing integers decide; equal integers fall through to the
tasks, where distinct `QueuedTask`s raise `TypeError`. -/
def pyPairLt (a b : Nat × QueuedTask) : Except String Bool :=
  if a.1 ≠ b.1 then Except.ok (decide (a.1 < b.1))
  else if a.2 = b.2 then Except.ok false
  else Except.error "TypeError: unsupported operand < between QueuedTask instances"

/-- `heap[i]` (IndexError outside the list). -/
def pyGet (heap : List (Nat × QueuedTask)) (i : Nat) :
    Except String (Nat × QueuedTask) :=
  match heap.get? i with
  | some x => Except.ok x
  | none => Except.error "IndexError: list index out of range"

/-- `heapq._siftdown(heap, startpos, pos)` with `newitem = heap[pos]`
passed explicitly: while `pos > startpos`, compare `newitem` with the
parent at `(pos - 1) // 2` and move the parent down; finally write
`newitem` at the resting position.  The loop index strictly decreases, so
a fuel of `pos + 1` is never exhausted. -/
def siftdownLoop : Nat → List (Nat × QueuedTask) → Nat → Nat →
    (Nat × QueuedTask) → Except String (List (Nat × QueuedTask))
  | 0, _, _, _, _ =>
    Except.error "RuntimeError: unreachable (siftdown fuel)"
  | fuel+1, heap, startpos, pos, newitem =>
    if startpos < pos then
      let parentpos := (pos - 1) / 2
      match pyGet heap parentpos with
      | .error e => .error e
      | .ok parent =>
        match pyPairLt newitem parent with
        | .error e => .error e
        | .ok true => siftdownLoop fuel (heap.set pos parent) startpos parentpos newitem
        | .ok false => .ok (heap.set pos newitem)
    else
      .ok (heap.set pos newitem)

/-- `heapq.heappush(heap, item)`: append, then sift the new last element
down towards the root. -/
def heappush (heap : List (Nat × QueuedTask)) (item : Nat × QueuedTask) :
    Except String (List (Nat × QueuedTask)) :=
  let heap2 := heap ++ [item]
  siftdownLoop heap2.length heap2 0 (heap2.length - 1) item

/-- The `while childpos < endpos` loop of `heapq._siftup(heap, pos)`:
repeatedly move the smaller child up (`childpos = rightpos` when
`not heap[childpos] < heap[rightpos]`), returning the heap and the final
`pos`.  The position at least doubles each iteration and stays below
`endpos`, so a fuel of `endpos + 1` is never exhausted. -/
def siftupLoop : Nat → List (Nat × QueuedTask) → Nat → Nat →
    Except String (List (Nat × QueuedTask) × Nat)
  | 0, _, _, _ =>
    Except.error "RuntimeError: unreachable (siftup fuel)"
  | fuel+1, heap, pos, endpos =>
    let childpos := 2 * pos + 1
    if childpos < endpos then
      let rightpos := childpos + 1
      let childsel : Except String Nat :=
        if rightpos < endpos then
          match pyGet heap childpos, pyGet heap rightpos with
          | .ok c, .ok r =>
            match pyPairLt c r with
            | .ok b => .ok (if b then childpos else rightpos)
            | .error e => .error e
          | .error e, _ => .error e
          | _, .error e => .error e
        else .ok childpos
      match childsel with
      | .error e => .error e
      | .ok childpos2 =>
        match pyGet heap childpos2 with
        | .error e => .error e
        | .ok c2 => siftupLoop fuel (heap.set pos c2) childpos2 endpos
    else
      .ok (heap, pos)

/-- `heapq._siftup(heap, pos)`: run the child-promotion loop, then place
`newitem` at the final position via `_siftdown(heap, pos, finalpos)`
(whose trailing write stores `newitem`). -/
def siftup (heap : List (Nat × QueuedTask)) (pos : Nat) :
    Except String (List (Nat × QueuedTask)) :=
  let endpos := heap.length
  match pyGet heap pos with
  | .error e => .error e
  | .ok newitem =>
    match siftupLoop (endpos + 1) heap pos endpos with
    | .error e => .error e
    | .ok (heap2, finalpos) =>
      siftdownLoop (finalpos + 1) heap2 pos finalpos newitem

/-- `heapq.heappop(heap)`: pop the last element; if the list is still
non-empty, take `heap[0]` as the return item, move the popped element to
the root and sift it up. -/
def heappop (heap : List (Nat × QueuedTask)) :
    Except String ((Nat × QueuedTask) × List (Nat × QueuedTask)) :=
  match heap.getLast? with
  | none => Except.error "IndexError: pop from empty list"
  | some lastelt =>
    let rest := heap.dropLast
    if rest.isEmpty then
      Except.ok (lastelt, [])
    else
      match rest.head? with
      | none => Except.error "IndexError: list index out of range"
      | some returnitem =>
        match siftup (rest.set 0 lastelt) 0 with
        | .error e => .error e
        | .ok heap3 => .ok (returnitem, heap3)

/-- The mutable state of a `MainThreadQueue`: the underlying heap list of
its `queue.PriorityQueue`, the task counter, and the stats dict. -/
structure MainThreadQueue where
  heap : List (Nat × QueuedTask)
  task_counter : Nat
  stats_enqueued : Nat
  stats_executed : Nat
  stats_failed : Nat
  stats_expired : Nat
deriving DecidableEq, Repr

/-- `MainThreadQueue.__init__`. -/
def MainThreadQueue.empty : MainThreadQueue :=
  { heap := []
    task_counter := 0
    stats_enqueued := 0
    stats_executed := 0
    stats_failed := 0
    stats_expired := 0 }

/-- The queueing part of `MainThreadQueue.enqueue` on a **non-main**
thread (lines 224-257 of `thread_safety.py`): allocate
`task_id = "task_" + counter`, build the `QueuedTask` (with a result
queue exactly when `wait` is true), and `put` it with inverted priority
value `3 - priority.value` (lower number = higher priority; the `put`
sifts the heap and can therefore raise, see `pyPairLt`). -/
def MainThreadQueue.enqueue_task (q : MainThreadQueue) (func : Except String Int)
    (priority : TaskPriority) (wait : Bool) (timeout now : Rat) :
    Except String (MainThreadQueue × QueuedTask) :=
  let counter := q.task_counter + 1
  let task : QueuedTask :=
    { func := func
      priority := priority
      result_channel := wait
      task_id := "task_" ++ toString counter
      created_at := now
      timeout := timeout }
  let priority_value := 3 - priority.val
  match heappush q.heap (priority_value, task) with
  | .error e => .error e
  | .ok heap2 =>
    .ok ({ q with
            heap := heap2
            task_counter := counter
            stats_enqueued := q.stats_enqueued + 1 }, task)

/-- The blocking tail of `MainThreadQueue.enqueue` when `wait=True`
(lines 259-276): `arrived` is the triple received on the dedicated result
queue within `timeout` seconds, or `none` when the channel stayed empty
that long (`queue.Empty`), in which case `TimeoutError` is raised; a
delivered failure is re-raised as `RuntimeError`. -/
def waitOutcome (task : QueuedTask) (timeout : Rat) (arrived : Option PyResult) :
    Except String (Option Int) :=
  match arrived with
  | none =>
    Except.error ("TimeoutError: Task " ++ task.task_id ++ " timed out after "
      ++ toString timeout ++ "s")
  | some (true, result, _) => Except.ok result
  | some (false, _, exc) =>
    Except.error ("RuntimeError: Task " ++ task.task_id ++ " failed: "
      ++ exc.getD "None")

/-- `MainThreadQueue.enqueue(func, priority, wait=True, timeout)` from a
non-main thread: queue the task, then block on the result channel. -/
def MainThreadQueue.enqueue_blocking (q : MainThreadQueue)
    (func : Except String Int) (priority : TaskPriority) (timeout now : Rat)
    (arrived : Option PyResult) : Except String (MainThreadQueue × Option Int) :=
  match q.enqueue_task func priority true timeout now with
  | .error e => .error e
  | .ok (q2, task) =>
    match waitOutcome task timeout arrived with
    | .error e => .error e
    | .ok r => .ok (q2, r)

/-- Observable outcome of one `process_tasks` call: the queue afterwards,
the returned `processed` count, the ids of the tasks actually executed (in
execution order), and the `(task_id, triple)` results put on result
channels (expiry failures included). -/
structure DrainResult where
  queue : MainThreadQueue
  processed : Nat
  ran : List String
  delivered : List (String × PyResult)
deriving DecidableEq, Repr

/-- The `while processed < max_tasks and not empty` loop of
`MainThreadQueue.process_tasks`: pop the heap, skip-and-fail an expired
task (delivering a `TimeoutError` triple to its result channel and
counting it as processed), otherwise execute and deliver; the fuel is
`max_tasks - processed`. -/
def processLoop : Nat → MainThreadQueue → Rat → List String →
    List (String × PyResult) → Nat → Except String DrainResult
  | 0, q, _, ran, delivered, processed =>
    Except.ok { queue := q, processed := processed, ran := ran, delivered := delivered }
  | fuel+1, q, now, ran, delivered, processed =>
    if q.heap.isEmpty then
      Except.ok { queue := q, processed := processed, ran := ran, delivered := delivered }
    else
      match heappop q.heap with
      | .error e => .error e
      | .ok (item, heap2) =>
        let t := item.2
        if t.is_expired now then
          let delivered2 :=
            if t.result_channel then
              delivered ++ [(t.task_id,
                ((false : Bool), (none : Option Int),
                  some "TimeoutError: Task expired in queue"))]
            else delivered
          processLoop fuel
            { q with heap := heap2, stats_expired := q.stats_expired + 1 }
            now ran delivered2 (processed + 1)
        else
          let r := t.execute
          let q2 :=
            if r.1 then { q with heap := heap2, stats_executed := q.stats_executed + 1 }
            else { q with heap := heap2, stats_failed := q.stats_failed + 1 }
          let delivered2 :=
            if t.result_channel then delivered ++ [(t.task_id, r)] else delivered
          processLoop fuel q2 now (ran ++ [t.task_id]) delivered2 (processed + 1)

/-- `MainThreadQueue.process_tasks(max_tasks)` executed on the main thread
(the `require_main_thread` guard passes; the drain is the queue's only
consumer, so the emptiness check and `get_nowait` agree). -/
def MainThreadQueue.process_tasks (q : MainThreadQueue) (max_tasks : Nat)
    (now : Rat) : Except String DrainResult :=
  processLoop max_tasks q now [] [] 0

/-- A sequence of `mark_captured()` calls at the given capture times. -/
def markIter (m : StateManagerState) (ts : List Rat) : StateManagerState :=
  ts.foldl (fun s now => s.mark_captured now) m

/-- The state after `i` successive round-robin `get_due_cameras` calls
(all at time `now`, over the same target list). -/
def rrIter (m : StateManagerState) (names : List String) (now : Rat) :
    Nat → StateManagerState
  | 0 => m
  | i + 1 => ((rrIter m names now i).get_due_cameras names true now).1

/-- A manager in the middle of a session: `start_recording` at t=10 in a
fresh manager, followed by five `mark_captured()` calls at t=11..15. -/
def demoSession : StateManagerState :=
  match StateManagerState.initialState.start_recording "WINDOW" "/tmp/session" 10 with
  | .ok m => markIter m [11, 12, 13, 14, 15]
  | .error _ => StateManagerState.initialState

/-- A manager that is currently recording (used to exercise non-Idle
hypotheses at a concrete input). -/
def busyState : StateManagerState :=
  { StateManagerState.initialState with state := RecordingState.recording }

/-- Two enrolled cameras of which only the second is due at t=0: camera
A's scheduler was created at t=5 (`next_due = 5`), camera B's at t=0. -/
def mixedState : StateManagerState :=
  (StateManagerState.initialState.init_camera_scheduler "A" 1 0 5).init_camera_scheduler
    "B" 1 0 0

/-- The task created by a first blocking enqueue (`wait=True`,
`timeout=2`) at t=0 on a fresh queue. -/
def tWait : QueuedTask :=
  { func := Except.ok 3
    priority := TaskPriority.normal
    result_channel := true
    task_id := "task_1"
    created_at := 0
    timeout := 2 }

/-- The queue after enqueueing `tWait` on a fresh queue. -/
def qWait : MainThreadQueue :=
  { heap := [(2, tWait)]
    task_counter := 1
    stats_enqueued := 1
    stats_executed := 0
    stats_failed := 0
    stats_expired := 0 }

/-- A waiting task (timeout 1s, created at t=0) that has gone stale by
t=5. -/
def tStale : QueuedTask :=
  { func := Except.ok 7
    priority := TaskPriority.normal
    result_channel := true
    task_id := "task_9"
    created_at := 0
    timeout := 1 }

/-- A queue holding only the stale task `tStale`. -/
def qStale : MainThreadQueue :=
  { MainThreadQueue.empty with heap := [(2, tStale)] }

/-- A fire-and-forget task whose timeout is 0 (i.e. no expiry). -/
def tZero : QueuedTask :=
  { func := Except.ok 7
    priority := TaskPriority.normal
    result_channel := false
    task_id := "task_3"
    created_at := 0
    timeout := 0 }

/-- A queue holding only the never-expiring task `tZero`. -/
def qZero : MainThreadQueue :=
  { MainThreadQueue.empty with heap := [(2, tZero)] }

namespace StateManagerState

/-- `mark_captured` never changes the lifecycle state. -/
lemma mark_captured_state (m : StateManagerState) (now : Rat) :
    (m.mark_captured now).state = m.state := by
  unfold mark_captured
  split <;> rfl

/-- Counting lemma for `mark_captured`: while Recording or Paused, each
call adds one to the counter. -/
lemma markIter_counter (ts : List Rat) :
    ∀ m : StateManagerState,
      (m.state = RecordingState.recording ∨ m.state = RecordingState.paused) →
      (markIter m ts).counter = m.counter + ts.length := by
  induction ts with
  | nil => intro m _; rfl
  | cons now ts ih =>
    intro m hm
    have hstep : markIter m (now :: ts) = markIter (m.mark_captured now) ts := rfl
    have hstate : (m.mark_captured now).state = m.state := mark_captured_state m now
    have hcnt : (m.mark_captured now).counter = m.counter + 1 := by
      unfold mark_captured
      rw [if_pos hm]
    rw [hstep, ih _ (by rw [hstate]; exact hm), hcnt, List.length_cons]
    omega

/-- While Idle, any number of `mark_captured` calls is the identity. -/
lemma markIter_idle (ts : List Rat) :
    ∀ m : StateManagerState, m.state = RecordingState.idle → markIter m ts = m := by
  induction ts with
  | nil => intro m _; rfl
  | cons now ts ih =>
    intro m hm
    have hnoop : m.mark_captured now = m := by
      unfold mark_captured
      rw [if_neg]
      rw [hm]
      simp
    show markIter (m.mark_captured now) ts = m
    rw [hnoop, ih m hm]

/-- `stop_recording` always ends Idle. -/
lemma stop_recording_state (m : StateManagerState) :
    (m.stop_recording).1.state = RecordingState.idle := by
  unfold stop_recording
  split
  · next h => exact h
  · rfl

end StateManagerState

/-- Claim C1: `start_recording(mode, session_location)` raises an
already-recording error (leaving the state unchanged, since the raise
precedes every assignment) whenever the state is not Idle; from Idle it
moves to Recording, stores the mode and session location, zeroes the frame
counter, sets the dirty flag, zeroes the round-robin index, clears the
suppression window, and in particular the frame counter of every
successful result is 0. -/
theorem start_recording_spec :
    (∀ (m : StateManagerState) (mode dir : String) (now : Rat),
      m.state ≠ RecordingState.idle →
      m.start_recording mode dir now =
        Except.error ("RuntimeError: Already recording (state=" ++ m.state.value ++ ")")) ∧
    (∀ (m : StateManagerState) (mode dir : String) (now : Rat),
      m.state = RecordingState.idle →
      m.start_recording mode dir now = Except.ok { m with
        state := RecordingState.recording
        capture_mode := mode
        session_dir := dir
        counter := 0
        start_time := now
        last_capture_time := 0
        dirty := true
        last_window_image := ""
        rr_index := 0
        suppress_until := 0
        window_async_pending := false }) ∧
    (∀ (m : StateManagerState) (mode dir : String) (now : Rat)
        (m2 : StateManagerState),
      m.start_recording mode dir now = Except.ok m2 →
      m2.counter = 0 ∧ m2.state = RecordingState.recording ∧
        m2.capture_mode = mode ∧ m2.session_dir = dir ∧ m2.dirty = true ∧
        m2.rr_index = 0 ∧ m2.suppress_until = 0) := by
  refine ⟨?_, ?_, ?_⟩
  · intro m mode dir now h
    unfold StateManagerState.start_recording
    rw [if_pos h]
  · intro m mode dir now h
    unfold StateManagerState.start_recording
    rw [if_neg (by simp [h])]
  · intro m mode dir now m2 h
    unfold StateManagerState.start_recording at h
    by_cases hs : m.state = RecordingState.idle
    · rw [if_neg (by simp [hs])] at h
      cases h
      exact ⟨rfl, rfl, rfl, rfl, rfl, rfl, rfl⟩
    · rw [if_pos hs] at h
      cases h

/-- Witness for C1 at concrete inputs: a recording manager rejects
`start_recording`, and a fresh Idle manager accepts it with counter 0. -/
theorem start_recording_spec_witness :
    busyState.state ≠ RecordingState.idle ∧
    busyState.start_recording "WINDOW" "/tmp/d" 5 =
      Except.error "RuntimeError: Already recording (state=recording)" ∧
    StateManagerState.initialState.state = RecordingState.idle ∧
    StateManagerState.initialState.start_recording "WINDOW" "/tmp/session" 3 =
      Except.ok { StateManagerState.initialState with
        state := RecordingState.recording
        capture_mode := "WINDOW"
        session_dir := "/tmp/session"
        counter := 0
        start_time := 3
        last_capture_time := 0
        dirty := true
        last_window_image := ""
        rr_index := 0
        suppress_until := 0
        window_async_pending := false } :=
  ⟨by decide,
    start_recording_spec.1 busyState "WINDOW" "/tmp/d" 5 (by decide),
    rfl,
    start_recording_spec.2.1 StateManagerState.initialState "WINDOW" "/tmp/session" 3 rfl⟩

/-- Claim C2 counterexample: in a session with 5 captured frames (started
at t=10, captures at t=11..15), `stop_recording()` returns Python `None`
rather than the final frame count 5, and it leaves the session fields
`started_at`/`last_capture_at` (`_start_time`/`_last_capture_time`)
uncleared — so it neither "returns the final frame_counter value as its
result" nor "clears all session fields". -/
theorem stop_recording_claim_counterexample :
    demoSession.state = RecordingState.recording ∧
    demoSession.counter = 5 ∧
    (demoSession.stop_recording).2 = none ∧
    (demoSession.stop_recording).2 ≠ some 5 ∧
    (demoSession.stop_recording).1.last_capture_time = 15 ∧
    (demoSession.stop_recording).1.start_time = 10 := by
  decide

/-- Claim C2 (amended): `stop_recording()` always returns Python `None`
(the final frame counter is captured only for logging); if already Idle it
is a no-op, and otherwise it transitions the state to Idle and clears
exactly the capture mode, session directory, frame counter and timer
handle — leaving `start_time`, `last_capture_time`, the camera schedules
and the installed-handler flag untouched. -/
theorem stop_recording_amended :
    (∀ m : StateManagerState, m.state = RecordingState.idle →
      m.stop_recording = (m, none)) ∧
    (∀ m : StateManagerState, m.state ≠ RecordingState.idle →
      m.stop_recording = ({ m with
        state := RecordingState.idle
        capture_mode := ""
        session_dir := ""
        counter := 0
        timer := none }, none)) := by
  constructor
  · intro m h
    unfold StateManagerState.stop_recording
    rw [if_pos h]
  · intro m h
    unfold StateManagerState.stop_recording
    rw [if_neg h]

/-- Witness for amended C2 at concrete inputs: the fresh Idle manager is
left alone, and the mid-session manager is cleaned up exactly as stated
(schedules and handler flag untouched). -/
theorem stop_recording_amended_witness :
    StateManagerState.initialState.stop_recording = (StateManagerState.initialState, none) ∧
    demoSession.stop_recording = ({ demoSession with
      state := RecordingState.idle
      capture_mode := ""
      session_dir := ""
      counter := 0
      timer := none }, none) :=
  ⟨stop_recording_amended.1 StateManagerState.initialState rfl,
    stop_recording_amended.2 demoSession (by decide)⟩

/-- Claim C3: `mark_captured()` in Recording or Paused increments the
frame counter, stamps `last_capture_at` and clears the dirty flag; in
Idle it is a no-op (and, being a total function, never raises).  N calls
during one session give `frame_counter == N`, and any further calls after
`stop_recording` leave the stopped state untouched. -/
theorem mark_captured_spec :
    (∀ (m : StateManagerState) (now : Rat),
      (m.state = RecordingState.recording ∨ m.state = RecordingState.paused) →
      m.mark_captured now =
        { m with counter := m.counter + 1, last_capture_time := now, dirty := false }) ∧
    (∀ (m : StateManagerState) (now : Rat),
      m.state = RecordingState.idle → m.mark_captured now = m) ∧
    (∀ (m : StateManagerState) (mode dir : String) (now0 : Rat)
        (m1 : StateManagerState) (ts : List Rat),
      m.start_recording mode dir now0 = Except.ok m1 →
      (markIter m1 ts).counter = ts.length) ∧
    (∀ (m : StateManagerState) (ts : List Rat),
      markIter (m.stop_recording).1 ts = (m.stop_recording).1) := by
  refine ⟨?_, ?_, ?_, ?_⟩
  · intro m now h
    unfold StateManagerState.mark_captured
    rw [if_pos h]
  · intro m now h
    unfold StateManagerState.mark_captured
    rw [if_neg]
    rw [h]
    simp
  · intro m mode dir now0 m1 ts h
    unfold StateManagerState.start_recording at h
    by_cases hs : m.state = RecordingState.idle
    · rw [if_neg (by simp [hs])] at h
      cases h
      rw [StateManagerState.markIter_counter ts _ (Or.inl rfl)]
      simp
    · rw [if_pos hs] at h
      cases h
  · intro m ts
    exact StateManagerState.markIter_idle ts _ (StateManagerState.stop_recording_state m)

/-- Witness for C3 at concrete inputs: the five captures of `demoSession`
give counter 5, Idle marks are no-ops, and marks after stop change
nothing. -/
theorem mark_captured_spec_witness :
    StateManagerState.initialState.mark_captured 4 = StateManagerState.initialState ∧
    demoSession.counter = 5 ∧
    markIter (demoSession.stop_recording).1 [20, 21, 22] = (demoSession.stop_recording).1 :=
  ⟨mark_captured_spec.2.1 StateManagerState.initialState 4 rfl,
    by decide,
    mark_captured_spec.2.2.2 demoSession [20, 21, 22]⟩

/-- Claim C5: `schedule_window_async(delay)` returns `false` with no state
change while a request is pending, and from the idle (not-pending) state
sets the pending flag, records `scheduled_at = now + delay`, and returns
`true`; two calls without an intervening finish/cancel return `true` then
`false`, so at most one request is pending (the pending state is a single
boolean). -/
theorem schedule_window_async_spec :
    (∀ (m : StateManagerState) (delay now : Rat),
      m.window_async_pending = true →
      m.schedule_window_async delay now = (m, false)) ∧
    (∀ (m : StateManagerState) (delay now : Rat),
      m.window_async_pending = false →
      m.schedule_window_async delay now = ({ m with
        window_async_pending := true
        window_async_scheduled_time := now + delay }, true)) ∧
    (∀ (m : StateManagerState) (d1 n1 d2 n2 : Rat),
      m.window_async_pending = false →
      (m.schedule_window_async d1 n1).2 = true ∧
      ((m.schedule_window_async d1 n1).1.schedule_window_async d2 n2).2 = false) := by
  refine ⟨?_, ?_, ?_⟩
  · intro m delay now h
    unfold StateManagerState.schedule_window_async
    rw [if_pos h]
  · intro m delay now h
    unfold StateManagerState.schedule_window_async
    rw [if_neg (by simp [h])]
  · intro m d1 n1 d2 n2 h
    unfold StateManagerState.schedule_window_async
    rw [if_neg (by simp [h])]
    exact ⟨rfl, rfl⟩

/-- Witness for C5 at a concrete input: on a fresh manager the first
schedule returns true and the second false. -/
theorem schedule_window_async_spec_witness :
    (StateManagerState.initialState.schedule_window_async 1 2).2 = true ∧
    ((StateManagerState.initialState.schedule_window_async 1 2).1.schedule_window_async 3 4).2 = false :=
  schedule_window_async_spec.2.2 StateManagerState.initialState 1 2 3 4 rfl

/-- Claim C8: `reset()` is a total function (never raises) that from any
state — consistent or not — leaves the machine Idle with frame counter 0
and the session fields, timer handle, async-pending flag, camera
schedulers, round-robin index, suppression window and handler flag all at
their initial values. -/
theorem reset_spec :
    ∀ m : StateManagerState,
      (m.reset).state = RecordingState.idle ∧
      (m.reset).counter = 0 ∧
      (m.reset).capture_mode = "" ∧
      (m.reset).session_dir = "" ∧
      (m.reset).start_time = 0 ∧
      (m.reset).last_capture_time = 0 ∧
      (m.reset).timer = none ∧
      (m.reset).last_window_image = "" ∧
      (m.reset).window_async_pending = false ∧
      (m.reset).camera_schedulers = [] ∧
      (m.reset).rr_index = 0 ∧
      (m.reset).suppress_until = 0 ∧
      (m.reset).dirty = true ∧
      (m.reset).ignore_depsgraph = false ∧
      (m.reset).handler_installed = false := by
  intro m
  refine ⟨rfl, rfl, rfl, rfl, rfl, rfl, rfl, rfl, rfl, rfl, rfl, rfl, rfl, rfl, rfl⟩

/-- Claim C9: constructing `StateManager()` is idempotent: constructing
with an initialized instance in the singleton cell returns that very
instance with every field unchanged, and re-running the constructor on
the cell produced by any construction returns the same instance and the
same cell. -/
theorem construct_singleton_idempotent :
    (∀ s : StateManagerState, s.initialized = true →
      StateManagerState.construct (some s) = (s, some s)) ∧
    (∀ cell : Option StateManagerState,
      StateManagerState.construct ((StateManagerState.construct cell).2) =
        StateManagerState.construct cell) := by
  have hinit : ∀ s : StateManagerState, s.initialized = true →
      StateManagerState.construct (some s) = (s, some s) := by
    intro s h
    unfold StateManagerState.construct StateManagerState.pyNew StateManagerState.pyInit
    simp [h]
  refine ⟨hinit, ?_⟩
  intro cell
  have h1 : ((StateManagerState.construct cell).1).initialized = true := by
    cases cell with
    | none => rfl
    | some s =>
      show (StateManagerState.pyInit s).initialized = true
      unfold StateManagerState.pyInit
      split
      · next h => exact h
      · rfl
  have h2 : (StateManagerState.construct cell).2 = some (StateManagerState.construct cell).1 := by
    cases cell <;> rfl
  rw [h2, hinit _ h1]
  have h3 : StateManagerState.construct cell =
      ((StateManagerState.construct cell).1, (StateManagerState.construct cell).2) := rfl
  rw [h3, h2]

/-- Witness for C9 at a concrete input: re-constructing over an
initialized instance returns it unchanged. -/
theorem construct_singleton_idempotent_witness :
    StateManagerState.initialState.initialized = true ∧
    StateManagerState.construct (some StateManagerState.initialState) =
      (StateManagerState.initialState, some StateManagerState.initialState) :=
  ⟨rfl, construct_singleton_idempotent.1 StateManagerState.initialState rfl⟩

namespace StateManagerState

/-- When every listed camera is enrolled and due, the round-robin scan
succeeds at its very first offset. -/
lemma rr_first_due_all (scheds : List (String × CameraScheduler))
    (names : List String) (now : Rat) (start : Nat) (h0 : names ≠ [])
    (hdue : ∀ nm ∈ names, ∃ s, schedGet scheds nm = some s ∧ s.is_due now = true) :
    rrFirstDue scheds names now start = some 0 := by
  have hlen : 0 < names.length := List.length_pos.mpr h0
  obtain ⟨k, hk⟩ : ∃ k, names.length = k + 1 := ⟨names.length - 1, by omega⟩
  unfold rrFirstDue
  rw [hk, List.range_succ_eq_map, List.find?_cons_of_pos]
  have hidx : (start + 0) % names.length < names.length := Nat.mod_lt _ hlen
  have hmem : names.getD ((start + 0) % names.length) "" ∈ names := by
    rw [List.getD_eq_getElem?_getD, List.getElem?_eq_getElem hidx]
    exact List.getElem_mem hidx
  obtain ⟨s, hs, hd⟩ := hdue _ hmem
  simp only [← hk]
  rw [hs]
  exact hd

/-- One round-robin `get_due_cameras` call when every listed camera is
enrolled and due: it returns exactly the camera at the rotating index and
advances the index one past it. -/
lemma get_due_rr_all (m : StateManagerState) (names : List String) (now : Rat)
    (h0 : names ≠ [])
    (hdue : ∀ nm ∈ names, ∃ s, schedGet m.camera_schedulers nm = some s ∧
      s.is_due now = true) :
    m.get_due_cameras names true now =
      ({ m with rr_index := (m.rr_index % names.length + 1) % names.length },
        [names.getD (m.rr_index % names.length) ""]) := by
  unfold get_due_cameras
  rw [if_neg (by simp [h0])]
  rw [if_pos rfl]
  rw [rr_first_due_all m.camera_schedulers names now m.rr_index h0 hdue]
  simp

/-- After `i` round-robin calls (all cameras due, index starting at 0)
only the rotating index has moved, to `i` modulo the camera count. -/
lemma rrIter_eq (m : StateManagerState) (names : List String) (now : Rat)
    (h0 : names ≠ [])
    (hdue : ∀ nm ∈ names, ∃ s, schedGet m.camera_schedulers nm = some s ∧
      s.is_due now = true)
    (hrr : m.rr_index = 0) :
    ∀ i, rrIter m names now i = { m with rr_index := i % names.length } := by
  intro i
  induction i with
  | zero =>
    show m = { m with rr_index := 0 % names.length }
    rw [Nat.zero_mod, ← hrr]
  | succ i ih =>
    show ((rrIter m names now i).get_due_cameras names true now).1 = _
    rw [ih]
    rw [get_due_rr_all { m with rr_index := i % names.length } names now h0 hdue]
    simp [Nat.mod_add_mod]

/-- `rrFirstDue` scans exactly the per-offset predicate `dueAt`. -/
lemma rrFirstDue_eq_find (scheds : List (String × CameraScheduler))
    (names : List String) (now : Rat) (start : Nat) :
    rrFirstDue scheds names now start =
      (List.range names.length).find? (dueAt scheds names now start) := rfl

end StateManagerState

/-- `find?` over `range' s n` returns `k` when the predicate holds at `k`,
`k` lies in the window, and the predicate fails strictly before `k`. -/
lemma find_range_first (p : Nat → Bool) :
    ∀ (n s k : Nat), s ≤ k → k < s + n → p k = true →
      (∀ j, s ≤ j → j < k → p j = false) →
      (List.range' s n).find? p = some k := by
  intro n
  induction n with
  | zero =>
    intro s k h1 h2 _ _
    exact absurd h2 (by omega)
  | succ n ih =>
    intro s k h1 h2 h3 h4
    rw [List.range'_succ]
    by_cases hk : k = s
    · subst hk
      exact List.find?_cons_of_pos _ h3
    · have hs : p s = false := h4 s (Nat.le_refl s) (by omega)
      rw [List.find?_cons_of_neg _ (by simp [hs])]
      exact ih (s + 1) k (by omega) (by omega) h3 (fun j hj1 hj2 => h4 j (by omega) hj2)

/-- Conversely, a `find?` hit over `range' s n` is in the window,
satisfies the predicate, and nothing strictly before it does. -/
lemma find_range_first_inv (p : Nat → Bool) :
    ∀ (n s k : Nat), (List.range' s n).find? p = some k →
      s ≤ k ∧ k < s + n ∧ p k = true ∧ (∀ j, s ≤ j → j < k → p j = false) := by
  intro n
  induction n with
  | zero =>
    intro s k h
    simp [List.range'] at h
  | succ n ih =>
    intro s k h
    rw [List.range'_succ] at h
    by_cases hs : p s = true
    · rw [List.find?_cons_of_pos _ hs] at h
      have hk : s = k := by
        injection h
      subst hk
      refine ⟨Nat.le_refl s, by omega, hs, ?_⟩
      intro j hj1 hj2
      exact absurd hj2 (by omega)
    · rw [List.find?_cons_of_neg _ hs] at h
      obtain ⟨ih1, ih2, ih3, ih4⟩ := ih (s + 1) k h
      refine ⟨by omega, by omega, ih3, ?_⟩
      intro j hj1 hj2
      by_cases hjs : j = s
      · subst hjs
        cases hps : p j with
        | true => exact absurd hps hs
        | false => rfl
      · exact ih4 j (by omega) hj2

/-- Claim C4: round-robin `get_due_cameras` over a non-empty target list
returns at most one name; a non-empty result is the name at some index
`idx < n` with the rotating index advanced to `(idx + 1) % n`; when no
enrolled target is due the call returns `[]` and the whole state
(rotating index included) is unchanged; when all `n` (distinct) targets
are immediately due with the index at 0, the `i`-th of `n` successive
calls returns exactly the `i`-th target — each target once, in rotation
order; if the candidate at scan offset `offset` from the rotating index is
due while every earlier scan candidate is not, the call returns exactly
that target and advances the index one past it; and conversely every
non-empty result is the first due candidate in scan order from the
rotating index, with the index advanced one past it. -/
theorem round_robin_spec :
    (∀ (m : StateManagerState) (names : List String) (now : Rat),
      names ≠ [] →
      (∀ nm ∈ names, ∀ s, StateManagerState.schedGet m.camera_schedulers nm = some s →
        s.is_due now = false) →
      m.get_due_cameras names true now = (m, [])) ∧
    (∀ (m : StateManagerState) (names : List String) (now : Rat),
      (m.get_due_cameras names true now).2.length ≤ 1) ∧
    (∀ (m : StateManagerState) (names : List String) (now : Rat)
        (st : StateManagerState) (res : List String),
      m.get_due_cameras names true now = (st, res) → res ≠ [] →
      ∃ idx, idx < names.length ∧ res = [names.getD idx ""] ∧
        st.rr_index = (idx + 1) % names.length) ∧
    (∀ (m : StateManagerState) (names : List String) (now : Rat),
      m.rr_index = 0 →
      (∀ nm ∈ names, ∃ s, StateManagerState.schedGet m.camera_schedulers nm = some s ∧
        s.is_due now = true) →
      ∀ i, i < names.length →
        ((rrIter m names now i).get_due_cameras names true now).2 = [names.getD i ""] ∧
        (rrIter m names now (i + 1)).rr_index = (i + 1) % names.length) ∧
    (∀ (m : StateManagerState) (names : List String) (now : Rat) (offset : Nat),
      names ≠ [] → offset < names.length →
      StateManagerState.dueAt m.camera_schedulers names now m.rr_index offset = true →
      (∀ j, j < offset →
        StateManagerState.dueAt m.camera_schedulers names now m.rr_index j = false) →
      m.get_due_cameras names true now =
        ({ m with rr_index := ((m.rr_index + offset) % names.length + 1) % names.length },
          [names.getD ((m.rr_index + offset) % names.length) ""])) ∧
    (∀ (m : StateManagerState) (names : List String) (now : Rat)
        (st : StateManagerState) (res : List String),
      m.get_due_cameras names true now = (st, res) → res ≠ [] →
      ∃ offset, offset < names.length ∧
        StateManagerState.dueAt m.camera_schedulers names now m.rr_index offset = true ∧
        (∀ j, j < offset →
          StateManagerState.dueAt m.camera_schedulers names now m.rr_index j = false) ∧
        res = [names.getD ((m.rr_index + offset) % names.length) ""] ∧
        st.rr_index = ((m.rr_index + offset) % names.length + 1) % names.length) := by
  refine ⟨?_, ?_, ?_, ?_, ?_, ?_⟩
  · intro m names now h0 hnone
    have hfind : StateManagerState.rrFirstDue m.camera_schedulers names now m.rr_index = none := by
      unfold StateManagerState.rrFirstDue
      rw [List.find?_eq_none]
      intro offset hoff
      have hidx : (m.rr_index + offset) % names.length < names.length :=
        Nat.mod_lt _ (List.length_pos.mpr h0)
      have hmem : names.getD ((m.rr_index + offset) % names.length) "" ∈ names := by
        rw [List.getD_eq_getElem?_getD, List.getElem?_eq_getElem hidx]
        exact List.getElem_mem hidx
      simp only [Bool.not_eq_true]
      cases hs : StateManagerState.schedGet m.camera_schedulers
          (names.getD ((m.rr_index + offset) % names.length) "") with
      | none => rfl
      | some s => exact hnone _ hmem s hs
    unfold StateManagerState.get_due_cameras
    rw [if_neg (by simp [h0]), if_pos rfl, hfind]
  · intro m names now
    unfold StateManagerState.get_due_cameras
    split
    · simp
    · rw [if_pos rfl]
      split
      · simp
      · simp
  · intro m names now st res h hres
    unfold StateManagerState.get_due_cameras at h
    by_cases hemp : names.isEmpty
    · rw [if_pos hemp] at h
      cases h
      exact absurd rfl hres
    · rw [if_neg hemp, if_pos rfl] at h
      cases hfind : StateManagerState.rrFirstDue m.camera_schedulers names now m.rr_index with
      | none =>
        rw [hfind] at h
        cases h
        exact absurd rfl hres
      | some offset =>
        rw [hfind] at h
        cases h
        refine ⟨(m.rr_index + offset) % names.length, ?_, rfl, rfl⟩
        have h0 : names ≠ [] := by
          intro hnil
          rw [hnil] at hemp
          exact hemp rfl
        exact Nat.mod_lt _ (List.length_pos.mpr h0)
  · intro m names now hrr hdue i hi
    have h0 : names ≠ [] := by
      intro hnil
      rw [hnil] at hi
      exact absurd hi (by simp)
    constructor
    · rw [StateManagerState.rrIter_eq m names now h0 hdue hrr i]
      rw [StateManagerState.get_due_rr_all { m with rr_index := i % names.length } names now h0 hdue]
      have : i % names.length = i := Nat.mod_eq_of_lt hi
      simp [this]
    · rw [StateManagerState.rrIter_eq m names now h0 hdue hrr (i + 1)]
  · intro m names now offset h0 hoff hdueAt hbefore
    have hfind : StateManagerState.rrFirstDue m.camera_schedulers names now m.rr_index =
        some offset := by
      rw [StateManagerState.rrFirstDue_eq_find, List.range_eq_range']
      exact find_range_first _ names.length 0 offset (Nat.zero_le offset) (by omega)
        hdueAt (fun j _ hj => hbefore j hj)
    unfold StateManagerState.get_due_cameras
    rw [if_neg (by simp [h0]), if_pos rfl, hfind]
  · intro m names now st res h hres
    unfold StateManagerState.get_due_cameras at h
    by_cases hemp : names.isEmpty
    · rw [if_pos hemp] at h
      cases h
      exact absurd rfl hres
    · rw [if_neg hemp, if_pos rfl] at h
      cases hfind : StateManagerState.rrFirstDue m.camera_schedulers names now m.rr_index with
      | none =>
        rw [hfind] at h
        cases h
        exact absurd rfl hres
      | some offset =>
        rw [hfind] at h
        cases h
        have hinv := find_range_first_inv
          (StateManagerState.dueAt m.camera_schedulers names now m.rr_index)
          names.length 0 offset
          (by rw [← List.range_eq_range', ← StateManagerState.rrFirstDue_eq_find]; exact hfind)
        exact ⟨offset, by omega, hinv.2.2.1, fun j hj => hinv.2.2.2 j (Nat.zero_le j) hj,
          rfl, rfl⟩

/-- Witness for C4 at a concrete input: three cameras A, B, C, all due at
t=0; the three successive calls return A, then B, then C, a manager with
no due camera returns an empty batch unchanged, and in the mixed list
where A is not yet due but B is, the call skips A and returns exactly B
(the first due candidate in scan order). -/
theorem round_robin_spec_witness :
    (((StateManagerState.initialState.init_camera_scheduler "A" 1 0 0).init_camera_scheduler
        "B" 1 0 0).init_camera_scheduler "C" 1 0 0).rr_index = 0 ∧
    ((rrIter (((StateManagerState.initialState.init_camera_scheduler "A" 1 0 0).init_camera_scheduler
        "B" 1 0 0).init_camera_scheduler "C" 1 0 0) ["A", "B", "C"] 0 0).get_due_cameras
        ["A", "B", "C"] true 0).2 = ["A"] ∧
    ((rrIter (((StateManagerState.initialState.init_camera_scheduler "A" 1 0 0).init_camera_scheduler
        "B" 1 0 0).init_camera_scheduler "C" 1 0 0) ["A", "B", "C"] 0 1).get_due_cameras
        ["A", "B", "C"] true 0).2 = ["B"] ∧
    ((rrIter (((StateManagerState.initialState.init_camera_scheduler "A" 1 0 0).init_camera_scheduler
        "B" 1 0 0).init_camera_scheduler "C" 1 0 0) ["A", "B", "C"] 0 2).get_due_cameras
        ["A", "B", "C"] true 0).2 = ["C"] ∧
    StateManagerState.initialState.get_due_cameras ["A", "B", "C"] true 0 =
      (StateManagerState.initialState, []) ∧
    mixedState.get_due_cameras ["A", "B"] true 0 = ({ mixedState with rr_index := 0 }, ["B"]) := by
  refine ⟨rfl, ?_, ?_, ?_, ?_, ?_⟩
  · exact ((round_robin_spec.2.2.2.1 _ ["A", "B", "C"] 0 rfl (by decide) 0 (by decide)).1).trans
      (by decide)
  · exact ((round_robin_spec.2.2.2.1 _ ["A", "B", "C"] 0 rfl (by decide) 1 (by decide)).1).trans
      (by decide)
  · exact ((round_robin_spec.2.2.2.1 _ ["A", "B", "C"] 0 rfl (by decide) 2 (by decide)).1).trans
      (by decide)
  · exact round_robin_spec.1 StateManagerState.initialState ["A", "B", "C"] 0 (by decide)
      (by decide)
  · exact (round_robin_spec.2.2.2.2.1 mixedState ["A", "B"] 0 1 (by decide) (by decide)
      (by decide) (by decide)).trans (by decide)

/-- Popping a one-element heap needs no comparison. -/
lemma heappop_singleton (x : Nat × QueuedTask) : heappop [x] = Except.ok (x, []) := rfl

/-- The drain loop stops on an empty heap (or on exhausted budget). -/
lemma processLoop_empty (fuel : Nat) (q : MainThreadQueue) (now : Rat)
    (ran : List String) (delivered : List (String × PyResult)) (processed : Nat)
    (h : q.heap = []) :
    processLoop fuel q now ran delivered processed =
      Except.ok { queue := q, processed := processed, ran := ran, delivered := delivered } := by
  cases fuel with
  | zero => rfl
  | succ fuel =>
    unfold processLoop
    rw [h]
    rfl

/-- One drain step on a queue holding a single expired waiting task:
the task is skipped (not executed), its channel receives the timeout
failure, and the heap is left empty. -/
lemma processLoop_singleton_expired (k : Nat) (q : MainThreadQueue) (pv : Nat)
    (t : QueuedTask) (now : Rat) (ran : List String)
    (delivered : List (String × PyResult)) (processed : Nat)
    (h : q.heap = [(pv, t)]) (hexp : t.is_expired now = true)
    (hchan : t.result_channel = true) :
    processLoop (k + 1) q now ran delivered processed = Except.ok
      { queue := { q with heap := [], stats_expired := q.stats_expired + 1 }
        processed := processed + 1
        ran := ran
        delivered := delivered ++
          [(t.task_id, (false, none, some "TimeoutError: Task expired in queue"))] } := by
  unfold processLoop
  rw [h, heappop_singleton]
  simp only [List.isEmpty_cons, Bool.false_eq_true, if_false, hexp, hchan, if_true]
  rw [processLoop_empty]
  all_goals simp

/-- One drain step on a queue holding a single non-expired task: the task
is executed and the heap is left empty. -/
lemma processLoop_singleton_live (k : Nat) (q : MainThreadQueue) (pv : Nat)
    (t : QueuedTask) (now : Rat) (ran : List String)
    (delivered : List (String × PyResult)) (processed : Nat)
    (h : q.heap = [(pv, t)]) (hexp : t.is_expired now = false) :
    processLoop (k + 1) q now ran delivered processed = Except.ok
      { queue := (if (t.execute).1 then
            { q with heap := [], stats_executed := q.stats_executed + 1 }
          else
            { q with heap := [], stats_failed := q.stats_failed + 1 })
        processed := processed + 1
        ran := ran ++ [t.task_id]
        delivered := delivered ++
          (if t.result_channel then [(t.task_id, t.execute)] else []) } := by
  unfold processLoop
  rw [h, heappop_singleton]
  simp only [List.isEmpty_cons, Bool.false_eq_true, if_false, hexp]
  by_cases hch : t.result_channel = true
  · by_cases hsucc : (t.execute).1 = true
    · simp only [hch, hsucc, if_true]
      rw [processLoop_empty]
      all_goals simp
    · simp only [hch, hsucc, if_true, Bool.not_eq_true] at *
      simp only [hsucc, Bool.false_eq_true, if_false, hch, if_true]
      rw [processLoop_empty]
      all_goals simp
  · simp only [Bool.not_eq_true] at hch
    by_cases hsucc : (t.execute).1 = true
    · simp only [hch, hsucc, if_true, Bool.false_eq_true, if_false]
      rw [processLoop_empty]
      all_goals simp
    · simp only [Bool.not_eq_true] at hsucc
      simp only [hch, hsucc, Bool.false_eq_true, if_false]
      rw [processLoop_empty]
      all_goals simp

/-- Claim C6 (code evidence): FIFO execution of two equal-priority tasks
is impossible — the second equal-priority enqueue already raises: the
heap sift compares the two `(priority_value, task)` tuples, the equal
integer priorities fall through to the `QueuedTask` dataclass, and the
dataclass defines no `<`, so `PriorityQueue.put` raises `TypeError`
before the tasks could ever reach the drain loop. -/
theorem equal_priority_enqueue_raises :
    (MainThreadQueue.empty.enqueue_task (Except.ok 1) TaskPriority.normal false 5 0).toOption
        ≠ none ∧
    (MainThreadQueue.empty.enqueue_task (Except.ok 1) TaskPriority.normal false 5 0).bind
        (fun p => p.1.enqueue_task (Except.ok 2) TaskPriority.normal false 5 0) =
      Except.error "TypeError: unsupported operand < between QueuedTask instances" := by
  constructor
  · decide
  · decide

/-- Claim C7: a blocking enqueue whose result channel stays empty for the
whole timeout raises `TimeoutError` to the caller, and the next drain of
a queue holding the stale task (positive timeout, age beyond it) skips it
without executing it, delivers a `TimeoutError` failure triple on its
channel, and leaves no residual entry in the queue. -/
theorem blocking_timeout_spec :
    (∀ (q : MainThreadQueue) (func : Except String Int) (prio : TaskPriority)
        (timeout now : Rat) (q2 : MainThreadQueue) (task : QueuedTask),
      q.enqueue_task func prio true timeout now = Except.ok (q2, task) →
      q.enqueue_blocking func prio timeout now none =
        Except.error ("TimeoutError: Task " ++ task.task_id ++ " timed out after "
          ++ toString timeout ++ "s")) ∧
    (∀ (q : MainThreadQueue) (pv : Nat) (t : QueuedTask) (now : Rat) (max_tasks : Nat),
      q.heap = [(pv, t)] → t.result_channel = true → 0 < t.timeout →
      t.timeout < now - t.created_at → 0 < max_tasks →
      q.process_tasks max_tasks now = Except.ok
        { queue := { q with heap := [], stats_expired := q.stats_expired + 1 }
          processed := 1
          ran := []
          delivered := [(t.task_id,
            (false, none, some "TimeoutError: Task expired in queue"))] }) := by
  constructor
  · intro q func prio timeout now q2 task h
    unfold MainThreadQueue.enqueue_blocking
    rw [h]
    rfl
  · intro q pv t now max_tasks hheap hchan htpos hage hmax
    obtain ⟨k, hk⟩ : ∃ k, max_tasks = k + 1 := ⟨max_tasks - 1, by omega⟩
    subst hk
    have hexp : t.is_expired now = true := by
      unfold QueuedTask.is_expired
      rw [if_neg (not_le.mpr htpos)]
      exact decide_eq_true hage
    unfold MainThreadQueue.process_tasks
    rw [processLoop_singleton_expired k q pv t now [] [] 0 hheap hexp hchan]
    simp

/-- Witness for C7 at concrete inputs: a blocking enqueue at t=0 with
timeout 2 and no reply raises `TimeoutError`, and draining a queue whose
only entry is a task with timeout 1 created at t=0, at t=5, expires it
with the failure delivered and the heap emptied. -/
theorem blocking_timeout_spec_witness :
    MainThreadQueue.empty.enqueue_task (Except.ok 3) TaskPriority.normal true 2 0 =
      Except.ok (qWait, tWait) ∧
    MainThreadQueue.empty.enqueue_blocking (Except.ok 3) TaskPriority.normal 2 0 none =
      Except.error ("TimeoutError: Task " ++ tWait.task_id ++ " timed out after "
        ++ toString (2 : Rat) ++ "s") ∧
    qStale.process_tasks 10 5 = Except.ok
      { queue := { qStale with heap := [], stats_expired := qStale.stats_expired + 1 }
        processed := 1
        ran := []
        delivered := [(tStale.task_id,
          (false, none, some "TimeoutError: Task expired in queue"))] } :=
  ⟨by decide,
    blocking_timeout_spec.1 MainThreadQueue.empty (Except.ok 3) TaskPriority.normal 2 0
      qWait tWait (by decide),
    blocking_timeout_spec.2 qStale 2 tStale 5 10 rfl rfl (by norm_num [tStale])
      (by norm_num [tStale]) (by norm_num)⟩

/-- Claim C10: a queued task whose timeout is zero or negative never
expires — `is_expired()` is false at every age — and the drain loop
therefore never drops it with a Timeout: when popped it is executed
(the expired counter untouched, the result delivered normally when a
channel exists). -/
theorem zero_timeout_spec :
    (∀ (t : QueuedTask) (now : Rat), t.timeout ≤ 0 → t.is_expired now = false) ∧
    (∀ (q : MainThreadQueue) (pv : Nat) (t : QueuedTask) (now : Rat) (max_tasks : Nat),
      q.heap = [(pv, t)] → t.timeout ≤ 0 → 0 < max_tasks →
      q.process_tasks max_tasks now = Except.ok
        { queue := (if (t.execute).1 then
              { q with heap := [], stats_executed := q.stats_executed + 1 }
            else
              { q with heap := [], stats_failed := q.stats_failed + 1 })
          processed := 1
          ran := [t.task_id]
          delivered := (if t.result_channel then [(t.task_id, t.execute)] else []) }) := by
  constructor
  · intro t now h
    unfold QueuedTask.is_expired
    rw [if_pos h]
  · intro q pv t now max_tasks hheap htz hmax
    obtain ⟨k, hk⟩ : ∃ k, max_tasks = k + 1 := ⟨max_tasks - 1, by omega⟩
    subst hk
    have hexp : t.is_expired now = false := by
      unfold QueuedTask.is_expired
      rw [if_pos htz]
    unfold MainThreadQueue.process_tasks
    rw [processLoop_singleton_live k q pv t now [] [] 0 hheap hexp]
    simp

/-- Witness for C10 at a concrete input: the timeout-0 task `tZero`, aged
1000 seconds, is not expired and is executed by the drain. -/
theorem zero_timeout_spec_witness :
    tZero.is_expired 1000 = false ∧
    qZero.process_tasks 10 1000 = Except.ok
      { queue := (if (tZero.execute).1 then
            { qZero with heap := [], stats_executed := qZero.stats_executed + 1 }
          else
            { qZero with heap := [], stats_failed := qZero.stats_failed + 1 })
        processed := 1
        ran := [tZero.task_id]
        delivered := (if tZero.result_channel then [(tZero.task_id, tZero.execute)] else []) } :=
  ⟨zero_timeout_spec.1 tZero 1000 (by decide),
    zero_timeout_spec.2 qZero 2 tZero 1000 10 rfl (by decide) (by decide)⟩

end TimelapseX
